/-
Verification of the Fleet Monitor CDK infrastructure application
(src/infrastructure/bin/app.ts and the network stack it instantiates).

The embedding models the environment-configuration resolvers
(getVpcConfig, getLogRetention), the flow-log log-group parameters, the
per-tier stack dependency wiring, and the environment-variable table at
the top of app.ts, following JavaScript runtime semantics for the
TypeScript source: property access on an object literal falls through to
Object.prototype when the key is not an own property, and the || operator
returns its left operand whenever that operand is truthy (any object or
function is truthy; undefined and the empty string are falsy).
-/
import Mathlib

namespace FleetMonitor

/-- The property names an object literal inherits from Object.prototype.
Reading any of these on the config tables yields the inherited member (a
function, or for __proto__ the prototype object), which is truthy. -/
def objectProtoMembers : List String :=
  ["constructor", "hasOwnProperty", "isPrototypeOf", "propertyIsEnumerable",
   "toLocaleString", "toString", "valueOf", "__defineGetter__",
   "__defineSetter__", "__lookupGetter__", "__lookupSetter__", "__proto__"]

/-- The result of a JavaScript property read on a table object: an own
entry of the table, or a member inherited from Object.prototype. -/
inductive JsLookup (V : Type) where
  | record : V → JsLookup V
  | protoMember : String → JsLookup V
deriving DecidableEq

/-- JavaScript property access `table[key]`: own properties shadow the
prototype; a key that is neither an own property nor an Object.prototype
member reads as undefined (`none`). -/
def jsIndex {V : Type} (own : String → Option V) (key : String) :
    Option (JsLookup V) :=
  match own key with
  | some v => some (JsLookup.record v)
  | none =>
    if key ∈ objectProtoMembers then some (JsLookup.protoMember key) else none

/-- JavaScript `x || dflt` where x is a property read: undefined is falsy,
and every value a read of these tables can produce (a record object or an
inherited function) is truthy. -/
def jsOrElse {V : Type} (x : Option (JsLookup V)) (dflt : V) : JsLookup V :=
  match x with
  | some v => v
  | none => JsLookup.record dflt

/-- One row of the `configs` table in getVpcConfig. -/
structure VpcConfig where
  maxAzs : Nat
  cidr : String
  natGateways : Nat
deriving DecidableEq

/-- The own properties of the `configs` object literal in getVpcConfig. -/
def vpcConfigs : String → Option VpcConfig := fun env =>
  if env = "dev" then
    some { maxAzs := 2, cidr := "10.0.0.0/16", natGateways := 1 }
  else if env = "staging" then
    some { maxAzs := 2, cidr := "10.1.0.0/16", natGateways := 1 }
  else if env = "prod" then
    some { maxAzs := 3, cidr := "10.2.0.0/16", natGateways := 2 }
  else none

/-- `configs.dev`, the fallback operand of the || in getVpcConfig. -/
def devVpcConfig : VpcConfig :=
  { maxAzs := 2, cidr := "10.0.0.0/16", natGateways := 1 }

/-- getVpcConfig: `configs[env as keyof typeof configs] || configs.dev`. -/
def getVpcConfig (env : String) : JsLookup VpcConfig :=
  jsOrElse (jsIndex vpcConfigs env) devVpcConfig

/-- The aws_logs.RetentionDays values the `retentions` table uses. -/
inductive RetentionDays where
  | ONE_WEEK
  | TWO_WEEKS
  | SIX_MONTHS
deriving DecidableEq

/-- The own properties of the `retentions` object literal in
getLogRetention. -/
def retentions : String → Option RetentionDays := fun env =>
  if env = "dev" then some RetentionDays.ONE_WEEK
  else if env = "staging" then some RetentionDays.TWO_WEEKS
  else if env = "prod" then some RetentionDays.SIX_MONTHS
  else none

/-- getLogRetention:
`retentions[env as keyof typeof retentions] || retentions.dev`
(retentions.dev is RetentionDays.ONE_WEEK). -/
def getLogRetention (env : String) : JsLookup RetentionDays :=
  jsOrElse (jsIndex retentions env) RetentionDays.ONE_WEEK

/-- Splits a character list at every occurrence of `sep` (the pieces keep
their order; separators are dropped), as String.prototype.split does for a
single-character separator. -/
def splitOnChar (sep : Char) : List Char → List (List Char)
  | [] => [[]]
  | c :: rest =>
    match splitOnChar sep rest with
    | [] => if c = sep then [[], [c]] else [[c]]
    | h :: t => if c = sep then [] :: h :: t else (c :: h) :: t

/-- The value of a decimal digit character, none for a non-digit. -/
def digitVal (c : Char) : Option Nat :=
  if c.isDigit then some (c.toNat - 48) else none

/-- Accumulates the decimal value of a digit list, none on a non-digit. -/
def decimalAux : List Char → Nat → Option Nat
  | [], acc => some acc
  | c :: rest, acc =>
    match digitVal c with
    | some d => decimalAux rest (acc * 10 + d)
    | none => none

/-- The decimal number a nonempty digit list denotes. -/
def decimalVal : List Char → Option Nat
  | [] => none
  | l => decimalAux l 0

/-- A dotted-quad IPv4 address as the 32-bit number it denotes: four
decimal octets below 256, separated by dots. -/
def parseIPv4 (l : List Char) : Option Nat :=
  match splitOnChar (Char.ofNat 46) l with
  | [a, b, c, d] =>
    match decimalVal a, decimalVal b, decimalVal c, decimalVal d with
    | some x, some y, some z, some w =>
      if x < 256 ∧ y < 256 ∧ z < 256 ∧ w < 256 then
        some (((x * 256 + y) * 256 + z) * 256 + w)
      else none
    | _, _, _, _ => none
  | _ => none

/-- A CIDR string "a.b.c.d/m" as (base address, mask length m ≤ 32). -/
def parseCidr (s : String) : Option (Nat × Nat) :=
  match splitOnChar (Char.ofNat 47) s.toList with
  | [ip, m] =>
    match parseIPv4 ip, decimalVal m with
    | some base, some len => if len ≤ 32 then some (base, len) else none
    | _, _ => none
  | _ => none

/-- Whether address `a` lies in the network range a CIDR string denotes:
the high `m` bits of `a` equal those of the base address. False when the
string is not a CIDR. -/
def inCidr (c : String) (a : Nat) : Bool :=
  match parseCidr c with
  | some bp => a / 2 ^ (32 - bp.2) == bp.1 / 2 ^ (32 - bp.2)
  | none => false

/-- The number of addresses a CIDR range holds: 2 ^ (32 - mask length). -/
def cidrNumAddresses (c : String) : Option Nat :=
  (parseCidr c).map fun bp => 2 ^ (32 - bp.2)

/-- The cdk.RemovalPolicy values the network stack uses. -/
inductive RemovalPolicy where
  | RETAIN
  | DESTROY
deriving DecidableEq

/-- The removal policy of the VPCFlowLogGroup log group:
`props.environmentName === 'prod' ? RETAIN : DESTROY`. -/
def flowLogRemovalPolicy (envName : String) : RemovalPolicy :=
  if envName = "prod" then RemovalPolicy.RETAIN else RemovalPolicy.DESTROY

/-- The name of the VPCFlowLogGroup log group: the template literal
`/aws/vpc/flowlogs/` followed by props.environmentName. -/
def flowLogGroupName (envName : String) : String :=
  "/aws/vpc/flowlogs/" ++ envName

/-- The three deployment tiers app.ts instantiates. -/
inductive Tier where
  | dev
  | staging
  | prod
deriving DecidableEq, Fintype

/-- The four stack kinds app.ts instantiates per tier. -/
inductive StackKind where
  | network
  | security
  | monitoring
  | main
deriving DecidableEq, Fintype

/-- The addDependency calls of app.ts, in source order, as pairs
(dependent stack, stack it depends on); each stack is identified by its
tier and kind. -/
def appDependencies : List ((Tier × StackKind) × (Tier × StackKind)) :=
  [((Tier.dev, StackKind.security), (Tier.dev, StackKind.network)),
   ((Tier.dev, StackKind.main), (Tier.dev, StackKind.network)),
   ((Tier.dev, StackKind.main), (Tier.dev, StackKind.security)),
   ((Tier.dev, StackKind.monitoring), (Tier.dev, StackKind.main)),
   ((Tier.staging, StackKind.security), (Tier.staging, StackKind.network)),
   ((Tier.staging, StackKind.main), (Tier.staging, StackKind.network)),
   ((Tier.staging, StackKind.main), (Tier.staging, StackKind.security)),
   ((Tier.staging, StackKind.monitoring), (Tier.staging, StackKind.main)),
   ((Tier.prod, StackKind.security), (Tier.prod, StackKind.network)),
   ((Tier.prod, StackKind.main), (Tier.prod, StackKind.network)),
   ((Tier.prod, StackKind.main), (Tier.prod, StackKind.security)),
   ((Tier.prod, StackKind.monitoring), (Tier.prod, StackKind.main))]

/-- The four intra-tier dependency edges the spec describes, as pairs
(dependent kind, kind it depends on). -/
def intraTierEdges : List (StackKind × StackKind) :=
  [(StackKind.security, StackKind.network),
   (StackKind.main, StackKind.network),
   (StackKind.main, StackKind.security),
   (StackKind.monitoring, StackKind.main)]

/-- JavaScript truthiness of an environment-variable read: undefined and
the empty string are falsy, every other string is truthy. -/
def jsTruthyStr : Option String → Bool
  | none => false
  | some s => !(s == "")

/-- JavaScript `a || b` over two environment-variable reads. -/
def jsOrOpt (x y : Option String) : Option String :=
  if jsTruthyStr x then x else y

/-- JavaScript `a || d` for a variable read with a string literal default. -/
def jsOrDefault (x : Option String) (d : String) : String :=
  if jsTruthyStr x then x.getD d else d

/-- One entry of the `environments` object of app.ts. -/
structure EnvSpec where
  account : Option String
  region : String
deriving DecidableEq

/-- The `environments` object of app.ts. -/
structure Environments where
  dev : EnvSpec
  staging : EnvSpec
  prod : EnvSpec
deriving DecidableEq

/-- The `environments` object literal of app.ts, as a function of the
process environment. Each of the three entries reads
`process.env.CDK_DEFAULT_ACCOUNT || process.env.AWS_ACCOUNT_ID` and
`process.env.CDK_DEFAULT_REGION || 'us-east-1'`. -/
def environments (penv : String → Option String) : Environments where
  dev :=
    { account := jsOrOpt (penv "CDK_DEFAULT_ACCOUNT") (penv "AWS_ACCOUNT_ID"),
      region := jsOrDefault (penv "CDK_DEFAULT_REGION") "us-east-1" }
  staging :=
    { account := jsOrOpt (penv "CDK_DEFAULT_ACCOUNT") (penv "AWS_ACCOUNT_ID"),
      region := jsOrDefault (penv "CDK_DEFAULT_REGION") "us-east-1" }
  prod :=
    { account := jsOrOpt (penv "CDK_DEFAULT_ACCOUNT") (penv "AWS_ACCOUNT_ID"),
      region := jsOrDefault (penv "CDK_DEFAULT_REGION") "us-east-1" }

/-- Claim C6 as stated for the region: some primary region variable and
some distinct fallback region variable are consulted in order, and the
hard-coded default is used only when neither is set (truthy). -/
def regionReadAsClaimed : Prop :=
  ∃ p fb : String, p ≠ fb ∧
    ∀ penv : String → Option String,
      (environments penv).dev.region =
        (if jsTruthyStr (penv p) then (penv p).getD "us-east-1"
         else if jsTruthyStr (penv fb) then (penv fb).getD "us-east-1"
         else "us-east-1")

/-- Left cancellation of string append: equal strings with the same
leading piece have equal trailing pieces. -/
theorem string_append_left_cancel (s t u : String) (h : s ++ t = s ++ u) :
    t = u := by
  have hd : s.data ++ t.data = s.data ++ u.data := by
    have := congrArg String.data h
    simpa [String.data] using this
  have hdu : t.data = u.data := List.append_cancel_left hd
  cases t; cases u; exact congrArg String.mk hdu

/-- Claim C1: the claim states the resolvers return the matching table
entry for dev, staging and prod and the dev entry for every other input
string. The code violates this: for an input that is a property name
inherited from Object.prototype, such as toString, the lookup finds the
inherited member, which is truthy, so the || fallback never fires and the
resolver returns that member instead of the dev record — contradicting
the declared RetentionDays return type of getLogRetention and the evident
intent of the || default. This theorem evaluates both resolvers at the
failing input toString and at dev. -/
theorem resolver_proto_member_bug :
    getVpcConfig "toString" = JsLookup.protoMember "toString"
    ∧ ¬ getVpcConfig "toString" = JsLookup.record devVpcConfig
    ∧ getVpcConfig "dev" = JsLookup.record devVpcConfig
    ∧ getLogRetention "toString" = JsLookup.protoMember "toString"
    ∧ ¬ getLogRetention "toString" = JsLookup.record RetentionDays.ONE_WEEK
    ∧ getLogRetention "dev" = JsLookup.record RetentionDays.ONE_WEEK := by
  decide

/-- Claim C2: resolving staging yields maxAzs 2, cidr 10.1.0.0/16,
natGateways 1 from getVpcConfig and TWO_WEEKS from getLogRetention. -/
theorem staging_resolution :
    getVpcConfig "staging" =
      JsLookup.record { maxAzs := 2, cidr := "10.1.0.0/16", natGateways := 1 }
    ∧ getLogRetention "staging" = JsLookup.record RetentionDays.TWO_WEEKS := by
  decide

/-- Claim C3: resolving the unrecognized identifier typo-env yields the
same records as resolving dev, namely maxAzs 2, cidr 10.0.0.0/16,
natGateways 1 and retention ONE_WEEK. -/
theorem typo_env_falls_back_to_dev :
    getVpcConfig "typo-env" = getVpcConfig "dev"
    ∧ getVpcConfig "typo-env" =
        JsLookup.record { maxAzs := 2, cidr := "10.0.0.0/16", natGateways := 1 }
    ∧ getLogRetention "typo-env" = getLogRetention "dev"
    ∧ getLogRetention "typo-env" = JsLookup.record RetentionDays.ONE_WEEK := by
  decide

/-- Claim C4: the prod configuration record has a NAT gateway count and a
CIDR address capacity each at least as large as those of the dev record
(gateways 2 versus 1; both /16 blocks hold 65536 addresses). -/
theorem prod_sizing_ge_dev :
    ∃ p d : VpcConfig,
      getVpcConfig "prod" = JsLookup.record p
      ∧ getVpcConfig "dev" = JsLookup.record d
      ∧ d.natGateways ≤ p.natGateways
      ∧ ∃ np nd : Nat,
          cidrNumAddresses p.cidr = some np
          ∧ cidrNumAddresses d.cidr = some nd
          ∧ nd ≤ np := by
  refine ⟨{ maxAzs := 3, cidr := "10.2.0.0/16", natGateways := 2 },
          { maxAzs := 2, cidr := "10.0.0.0/16", natGateways := 1 },
          by decide, by decide, by decide,
          65536, 65536, by decide, by decide, by decide⟩

/-- Claim C5: the addDependency calls of app.ts record, for each tier,
exactly the edges security on network, main on network, main on security
and monitoring on main, and every recorded edge stays inside one tier. -/
theorem dependencies_exact :
    ∀ d o : Tier × StackKind,
      ((d, o) ∈ appDependencies) ↔ (d.1 = o.1 ∧ (d.2, o.2) ∈ intraTierEdges) := by
  decide

/-- Claim C6, counterexample: the claim says the region is read from a
primary variable and a distinct fallback variable before the hard-coded
default applies. No such pair of variables exists: the region entry of
the environments object depends on CDK_DEFAULT_REGION alone, so for any
claimed pair, a process environment setting only the claimed fallback to
eu-west-1 still resolves the region to us-east-1. -/
theorem region_fallback_var_refuted : regionReadAsClaimed ↔ False := by
  constructor
  · rintro ⟨p, fb, hne, h⟩
    by_cases hp : p = "CDK_DEFAULT_REGION"
    · subst hp
      have h2 := h (fun v => if v = fb then some "eu-west-1" else none)
      have hfb : ¬("CDK_DEFAULT_REGION" = fb) := hne
      simp [environments, jsOrDefault, jsTruthyStr, hfb, Ne.symm hfb] at h2
    · have h1 := h (fun v => if v = p then some "eu-west-1" else none)
      have hcp : ¬("CDK_DEFAULT_REGION" = p) := fun hh => hp hh.symm
      simp [environments, jsOrDefault, jsTruthyStr, hcp] at h1
  · exact False.elim

/-- Claim C6, amended: each tier entry of the environments object reads
the account from primary variable CDK_DEFAULT_ACCOUNT with fallback
variable AWS_ACCOUNT_ID, and the region from the single variable
CDK_DEFAULT_REGION with the hard-coded default us-east-1 used when that
one variable is unset or empty; the three tier entries are identical. -/
theorem env_vars_amended :
    (∀ penv : String → Option String,
      (environments penv).dev.account =
        (if jsTruthyStr (penv "CDK_DEFAULT_ACCOUNT") then
          penv "CDK_DEFAULT_ACCOUNT"
         else penv "AWS_ACCOUNT_ID")
      ∧ (environments penv).dev.region =
          (if jsTruthyStr (penv "CDK_DEFAULT_REGION") then
            (penv "CDK_DEFAULT_REGION").getD "us-east-1"
           else "us-east-1")
      ∧ (environments penv).staging = (environments penv).dev
      ∧ (environments penv).prod = (environments penv).dev)
    ∧ (environments
        (fun v => if v = "AWS_ACCOUNT_ID" then some "123456789012" else none)
       ).dev.account = some "123456789012"
    ∧ (environments
        (fun v => if v = "AWS_ACCOUNT_ID" then some "123456789012" else none)
       ).dev.region = "us-east-1" :=
  ⟨fun _ => ⟨rfl, rfl, rfl, rfl⟩, rfl, rfl⟩

/-- Claim C7: the dev, staging and prod address blocks 10.0.0.0/16,
10.1.0.0/16 and 10.2.0.0/16 are pairwise disjoint: no address lies in two
of the three ranges. -/
theorem tier_cidrs_disjoint :
    ∀ a : Nat,
      ((inCidr "10.0.0.0/16" a && inCidr "10.1.0.0/16" a) = false)
      ∧ ((inCidr "10.0.0.0/16" a && inCidr "10.2.0.0/16" a) = false)
      ∧ ((inCidr "10.1.0.0/16" a && inCidr "10.2.0.0/16" a) = false) := by
  intro a
  have e0 : inCidr "10.0.0.0/16" a = (a / 65536 == 2560) := rfl
  have e1 : inCidr "10.1.0.0/16" a = (a / 65536 == 2561) := rfl
  have e2 : inCidr "10.2.0.0/16" a = (a / 65536 == 2562) := rfl
  rw [e0, e1, e2]
  by_cases h : a / 65536 = 2560 <;> by_cases h2 : a / 65536 = 2561 <;>
    simp_all

/-- Claim C8: the flow-log log group removal policy is RETAIN exactly for
the environment name prod and DESTROY for every other string, including
near-misses of prod. -/
theorem flowlog_removal_policy_iff :
    (∀ e : String,
      (flowLogRemovalPolicy e = RemovalPolicy.RETAIN ↔ e = "prod")
      ∧ (flowLogRemovalPolicy e = RemovalPolicy.DESTROY ↔ ¬(e = "prod")))
    ∧ flowLogRemovalPolicy "Prod" = RemovalPolicy.DESTROY
    ∧ flowLogRemovalPolicy "prodd" = RemovalPolicy.DESTROY := by
  refine ⟨fun e => ?_, by decide, by decide⟩
  by_cases h : e = "prod" <;> simp [flowLogRemovalPolicy, h]

/-- Claim C9: the flow-log log group name is /aws/vpc/flowlogs/ followed
by the environment name itself, and this naming is injective, so an
unrecognized identifier such as typo-env gets a log group name different
from the dev one even though both resolvers return the dev records. -/
theorem flowlog_group_name_uses_raw_env :
    (∀ e : String, flowLogGroupName e = "/aws/vpc/flowlogs/" ++ e)
    ∧ (∀ e₁ e₂ : String, flowLogGroupName e₁ = flowLogGroupName e₂ ↔ e₁ = e₂)
    ∧ getVpcConfig "typo-env" = getVpcConfig "dev"
    ∧ getLogRetention "typo-env" = getLogRetention "dev"
    ∧ ¬ flowLogGroupName "typo-env" = flowLogGroupName "dev" := by
  refine ⟨fun e => rfl,
          fun e₁ e₂ =>
            ⟨fun h => string_append_left_cancel "/aws/vpc/flowlogs/" e₁ e₂ h,
             fun h => by rw [h]⟩,
          by decide, by decide, by decide⟩

/-- Claim C10: the prod availability-zone count 3 is strictly greater
than the dev and staging counts, both 2. -/
theorem prod_azs_strictly_greater :
    ∃ p d s : VpcConfig,
      getVpcConfig "prod" = JsLookup.record p
      ∧ getVpcConfig "dev" = JsLookup.record d
      ∧ getVpcConfig "staging" = JsLookup.record s
      ∧ p.maxAzs = 3 ∧ d.maxAzs = 2 ∧ s.maxAzs = 2
      ∧ d.maxAzs < p.maxAzs ∧ s.maxAzs < p.maxAzs := by
  refine ⟨{ maxAzs := 3, cidr := "10.2.0.0/16", natGateways := 2 },
          { maxAzs := 2, cidr := "10.0.0.0/16", natGateways := 1 },
          { maxAzs := 2, cidr := "10.1.0.0/16", natGateways := 1 },
          by decide, by decide, by decide,
          rfl, rfl, rfl, by decide, by decide⟩

end FleetMonitor
